import Mathlib

/-!
Verification of the Athena_Invest analysis core: a shallow embedding of the
scoring engine (`src/agents/technical_analyzer.py`), the classic status
classifier (`src/agents/classic_analyzer.py`) and their configuration
constants (`src/agents/technical_config.py`, `src/agents/classic_config.py`),
together with proofs about the claims of the specification.

Prices, indicator values and scores are modelled as rationals; an indicator
value that may be NaN in the pandas frame is modelled as an `Option ℚ`
(`none` = unavailable).  String labels (`"breakdown"`, `"rising"`, ...) are
kept as the literal strings the source uses.
-/

namespace AthenaInvest

/-! ## Configuration constants, from `src/agents/technical_config.py` -/

def SMA_CROSSOVER_PCT : ℚ := 5

def SCORE_SMA_CROSSOVER : ℚ := 3

def SCORE_SMA_ESTABLISHED : ℚ := 1

def SCORE_EMA_ABOVE : ℚ := 2

def SCORE_RSI_OPTIMAL : ℚ := 2

def SCORE_VOLUME_HIGH : ℚ := 1

def SCORE_CCI_STRONG : ℚ := 2

def PENALTY_RSI_EXTREME : ℚ := -2

def PENALTY_BBANDS_OVEREXTENDED : ℚ := -2

def RSI_OPTIMAL_LOW : ℚ := 40

def RSI_OPTIMAL_HIGH : ℚ := 65

def RSI_OVERSOLD : ℚ := 30

def RSI_OVERBOUGHT : ℚ := 70

def CCI_STRONG_LOW : ℚ := 100

def CCI_STRONG_HIGH : ℚ := 200

def MAX_SCORE : ℚ := 10

/-! ## Configuration constants, from `src/agents/classic_config.py` -/

def EXTENSION_THRESHOLD : ℚ := 20

def ATR_WARNING_THRESHOLD : ℚ := 5

def ATR_SEVERE_THRESHOLD : ℚ := 8

def SMA_SLOPE_LOOKBACK : Nat := 10

def SMA_SLOPE_FLAT_THRESHOLD : ℚ := 1/2

def RESISTANCE_LOOKBACK : Nat := 30

/-! ## Scoring engine, from `TechnicalAnalyzer.calculate_score` -/

/-- Last row of the enriched frame consumed by `calculate_score`: the close
price plus the indicator columns, each of which may be NaN (`none`). -/
structure ScoreRow where
  Close : ℚ
  SMA_150 : Option ℚ
  EMA_50 : Option ℚ
  RSI : Option ℚ
  CCI : Option ℚ
  Volume : Option ℚ
  Volume_MA_20 : Option ℚ
  BBands_Upper : Option ℚ
deriving DecidableEq, Repr

/-- SMA-150 block of `calculate_score`: crossover bonus when the deviation is
in (0, SMA_CROSSOVER_PCT], established-trend bonus when above it. -/
def smaContrib (close : ℚ) (sma : Option ℚ) : List ℚ :=
  match sma with
  | none => []
  | some s =>
    if close > s then
      let deviation_pct := ((close - s) / s) * 100
      if 0 < deviation_pct ∧ deviation_pct ≤ SMA_CROSSOVER_PCT then
        [SCORE_SMA_CROSSOVER]
      else if deviation_pct > SMA_CROSSOVER_PCT then
        [SCORE_SMA_ESTABLISHED]
      else []
    else []

/-- EMA-50 block of `calculate_score`. -/
def emaContrib (close : ℚ) (ema : Option ℚ) : List ℚ :=
  match ema with
  | none => []
  | some e => if close > e then [SCORE_EMA_ABOVE] else []

/-- RSI block of `calculate_score`: optimal-range bonus, extreme penalty,
otherwise nothing. -/
def rsiContrib (rsi : Option ℚ) : List ℚ :=
  match rsi with
  | none => []
  | some r =>
    if RSI_OPTIMAL_LOW ≤ r ∧ r ≤ RSI_OPTIMAL_HIGH then [SCORE_RSI_OPTIMAL]
    else if r > RSI_OVERBOUGHT ∨ r < RSI_OVERSOLD then [PENALTY_RSI_EXTREME]
    else []

/-- Volume block of `calculate_score`: bonus only when both the volume and
its 20-day moving average are available and the volume exceeds the average. -/
def volumeContrib (vol volMA : Option ℚ) : List ℚ :=
  match vol, volMA with
  | some v, some m => if v > m then [SCORE_VOLUME_HIGH] else []
  | _, _ => []

/-- CCI block of `calculate_score`. -/
def cciContrib (cci : Option ℚ) : List ℚ :=
  match cci with
  | none => []
  | some c =>
    if CCI_STRONG_LOW ≤ c ∧ c ≤ CCI_STRONG_HIGH then [SCORE_CCI_STRONG] else []

/-- Bollinger-band block of `calculate_score`: penalty when the close is
above the upper band. -/
def bbContrib (close : ℚ) (upper : Option ℚ) : List ℚ :=
  match upper with
  | none => []
  | some u => if close > u then [PENALTY_BBANDS_OVEREXTENDED] else []

/-- Itemized contributions recorded by `calculate_score`, in the order the
source appends them (`added_points` and `penalties` interleaved by rule). -/
def contributions (r : ScoreRow) : List ℚ :=
  smaContrib r.Close r.SMA_150 ++ emaContrib r.Close r.EMA_50 ++
  rsiContrib r.RSI ++ volumeContrib r.Volume r.Volume_MA_20 ++
  cciContrib r.CCI ++ bbContrib r.Close r.BBands_Upper

/-- `TechnicalAnalyzer.calculate_score`: the running score is the sum of the
fired contributions, floored at zero at the end (`score = max(0.0, score)`);
the itemized contributions are returned alongside. -/
def calculateScore (r : ScoreRow) : ℚ × List ℚ :=
  (max 0 (contributions r).sum, contributions r)

/-! ## Classic analyzer, from `src/agents/classic_analyzer.py` -/

/-- Row of the frame consumed by `ClassicAnalyzer.analyze_classic`: close,
high (NaN-able, it is `dropna`-filtered for resistance), and the SMA-150 and
ATR indicator columns (NaN-able). -/
structure BarRow where
  Close : ℚ
  High : Option ℚ
  SMA_150 : Option ℚ
  ATR : Option ℚ
deriving DecidableEq, Repr

/-- Wall-clock value read by `datetime.now()`: the calendar fields the
formatter uses, with the English weekday name as `strftime("%A")` yields it. -/
structure DateTime where
  day : Nat
  month : Nat
  year : Nat
  day_name_en : String
deriving DecidableEq, Repr

/-- `ClassicAnalyzer._calculate_sma_slope`: percentage change of SMA_150 over
`SMA_SLOPE_LOOKBACK` rows, bucketed into rising / flat / declining, with
`"unknown"` when the window or either SMA value is missing. -/
def calculateSmaSlope (df : List BarRow) : String :=
  if df.length < SMA_SLOPE_LOOKBACK + 1 then "unknown"
  else
    match df.getLast?, df[df.length - (SMA_SLOPE_LOOKBACK + 1)]? with
    | some lastRow, some pastRow =>
      match lastRow.SMA_150, pastRow.SMA_150 with
      | some current_sma, some past_sma =>
        let slope_pct := ((current_sma - past_sma) / past_sma) * 100
        if |slope_pct| < SMA_SLOPE_FLAT_THRESHOLD then "flat"
        else if slope_pct < 0 then "declining"
        else "rising"
      | _, _ => "unknown"
    | _, _ => "unknown"

/-- `ClassicAnalyzer._find_local_resistance`: maximum of the non-NaN highs of
the last `RESISTANCE_LOOKBACK` rows (all rows when fewer), `none` when no
valid high exists. -/
def findLocalResistance (df : List BarRow) : Option ℚ :=
  let lookback := if df.length < RESISTANCE_LOOKBACK then df.length else RESISTANCE_LOOKBACK
  let recent_data := df.drop (df.length - lookback)
  let valid_highs := recent_data.filterMap (fun r => r.High)
  valid_highs.max?

/-- `ClassicAnalyzer._determine_status`: the five-way decision tree, in the
source's precedence order. -/
def determineStatus (is_positive : Bool) (sma_slope : String) (is_extended : Bool)
    (distance_from_sma : ℚ) : String :=
  if is_positive = false then "breakdown"
  else if is_extended = true ∧ distance_from_sma > EXTENSION_THRESHOLD then "stretched"
  else if sma_slope = "declining" ∨ sma_slope = "flat" then "stagnation"
  else if |distance_from_sma| < 5 then "accumulation"
  else "breakout"

/-- Result dictionary of `ClassicAnalyzer.analyze_classic` (the `ticker` slot,
set later by the caller, is omitted). -/
structure ClassicResult where
  is_positive : Bool
  current_price : ℚ
  sma_150 : ℚ
  sma_slope : String
  distance_from_sma : ℚ
  is_extended : Bool
  entry_zone : Option (ℚ × ℚ)
  resistance : Option ℚ
  atr_pct : Option ℚ
  atr_warning : Option String
  status : String
  days_until_earnings : Option Int
  next_earnings_date : Option DateTime
deriving DecidableEq, Repr

/-- Body of `analyze_classic` once the last row and a non-NaN SMA_150 are in
hand: the field-by-field construction of the result dictionary. -/
def mkClassicResult (df : List BarRow) (last_row : BarRow) (sma_150 : ℚ)
    (days_until_earnings : Option Int) (next_earnings_date : Option DateTime) :
    ClassicResult :=
  let current_price := last_row.Close
  let is_positive : Bool := decide (current_price > sma_150)
  let sma_slope := calculateSmaSlope df
  let distance_from_sma := ((current_price - sma_150) / sma_150) * 100
  let is_extended : Bool := decide (|distance_from_sma| > EXTENSION_THRESHOLD)
  let resistance := if is_positive then findLocalResistance df else none
  let entry_zone := match resistance with
    | some r => some (sma_150, r)
    | none => none
  let atr_pct := match last_row.ATR with
    | some atr => if current_price > 0 then some ((atr / current_price) * 100) else none
    | none => none
  let atr_warning := match atr_pct with
    | some p =>
      if p ≥ ATR_SEVERE_THRESHOLD then some "severe"
      else if p ≥ ATR_WARNING_THRESHOLD then some "warning"
      else none
    | none => none
  let status := determineStatus is_positive sma_slope is_extended distance_from_sma
  { is_positive := is_positive
    current_price := current_price
    sma_150 := sma_150
    sma_slope := sma_slope
    distance_from_sma := distance_from_sma
    is_extended := is_extended
    entry_zone := entry_zone
    resistance := resistance
    atr_pct := atr_pct
    atr_warning := atr_warning
    status := status
    days_until_earnings := days_until_earnings
    next_earnings_date := next_earnings_date }

/-- `ClassicAnalyzer.analyze_classic`: raises on an empty frame or a NaN
SMA_150 at the last row, otherwise returns the analysis dictionary. -/
def analyzeClassic (df : List BarRow) (days_until_earnings : Option Int)
    (next_earnings_date : Option DateTime) : Except String ClassicResult :=
  match df.getLast? with
  | none => .error "DataFrame is empty"
  | some last_row =>
    match last_row.SMA_150 with
    | none => .error "SMA_150 is not available - insufficient historical data"
    | some sma_150 =>
      .ok (mkClassicResult df last_row sma_150 days_until_earnings next_earnings_date)

/-! ## Narrative generator and output formatter, from `ClassicAnalyzer.format_output` -/

/-- Two-digit zero padding, as `strftime("%d")` / `strftime("%m")` produce. -/
def pad2 (n : Nat) : String :=
  if n < 10 then "0" ++ toString n else toString n

/-- `strftime("%d.%m.%Y")`. -/
def formatDMY (dt : DateTime) : String :=
  pad2 dt.day ++ "." ++ pad2 dt.month ++ "." ++ toString dt.year

/-- The `days_map` lookup of `_get_hebrew_date`, with the English name as the
fallback value. -/
def daysMap (en : String) : String :=
  if en = "Sunday" then "יום ראשון"
  else if en = "Monday" then "יום שני"
  else if en = "Tuesday" then "יום שלישי"
  else if en = "Wednesday" then "יום רביעי"
  else if en = "Thursday" then "יום חמישי"
  else if en = "Friday" then "יום שישי"
  else if en = "Saturday" then "יום שבת"
  else en

/-- `ClassicAnalyzer._get_hebrew_date`, with the `datetime.now()` reading made
an explicit argument. -/
def getHebrewDate (now : DateTime) : String :=
  formatDMY now ++ " " ++ daysMap now.day_name_en

/-- The `status_emoji` dictionary lookup with its `'📈'` default. -/
def statusEmoji (status : String) : String :=
  if status = "breakout" then "🚀"
  else if status = "stretched" then "🚀"
  else if status = "breakdown" then "💥"
  else if status = "stagnation" then "⚠️"
  else if status = "accumulation" then "📊"
  else "📈"

/-- The `status_text` dictionary lookup, defaulting to the raw status. -/
def statusText (status : String) : String :=
  if status = "breakout" then "פריצה"
  else if status = "stretched" then "מתוחה"
  else if status = "breakdown" then "שבירה"
  else if status = "stagnation" then "דשדוש"
  else if status = "accumulation" then "איסוף"
  else status

/-- Branch taken by `ClassicAnalyzer._generate_explanation`, carrying the
slope label and the distance the sentence interpolates. -/
inductive Explanation where
  | aboveExtended (slope : String) (distance : ℚ)
  | aboveIronFloor (slope : String) (distance : ℚ)
  | aboveNormal (slope : String) (distance : ℚ)
  | below (slope : String) (absDistance : ℚ)
deriving DecidableEq, Repr

/-- `ClassicAnalyzer._generate_explanation`: branch selection (the Hebrew
sentence text is determined by the branch and the interpolated values). -/
def generateExplanation (a : ClassicResult) : Explanation :=
  if a.is_positive then
    if |a.distance_from_sma| > EXTENSION_THRESHOLD then
      .aboveExtended a.sma_slope a.distance_from_sma
    else if |a.distance_from_sma| < 2 then
      .aboveIronFloor a.sma_slope a.distance_from_sma
    else
      .aboveNormal a.sma_slope a.distance_from_sma
  else
    .below a.sma_slope |a.distance_from_sma|

/-- `ClassicAnalyzer._generate_instruction`. -/
def generateInstruction (a : ClassicResult) : String :=
  if a.status = "breakdown" then "📉 הוראה: להתרחק"
  else if a.status = "stretched" then "📈 הוראה: לא לרדוף"
  else if a.status = "stagnation" then "📈 הוראה: להמתין לתיקון"
  else if a.status = "accumulation" then "📈 הוראה: איסוף"
  else if a.status = "breakout" then
    if a.is_extended then "📈 הוראה: לא לרדוף" else "📈 הוראה: איסוף"
  else "📈 הוראה: להמתין"

/-- `ClassicAnalyzer._generate_summary`. -/
def generateSummary (a : ClassicResult) : String :=
  if a.status = "breakdown" then
    "המניה מתחת למים (תקרת בטון), אין כניסה עד חזרה מעל הממוצע עם שיפוע חיובי."
  else if a.status = "stretched" then
    "המניה מתוחה מדי מהממוצע (טיסה לירח), מומלץ להמתין לתיקון או נשיקה לממוצע לפני כניסה."
  else if a.status = "stagnation" then
    "המניה מעל הממוצע אך המגמה חלשה (חשד/זהירות), מומלץ להמתין לשיפוע חיובי או נשיקה לממוצע."
  else if a.status = "accumulation" then
    "המניה נמצאת באזור איסוף מעל הממוצע (רצפת ברזל), שיפוע חיובי - אפשרות לכניסה באזור התמיכה."
  else if a.status = "breakout" then
    "המניה בפריצה מעל הממוצע עם שיפוע חיובי - מגמה עולה, להדק סטופים בממוצע."
  else "יש להמתין לזיהוי מגמה ברורה."

/-- Semantic line of the formatted output, one constructor per `lines.append`
site of `format_output`, carrying the values the f-string interpolates. -/
inductive Line where
  | header (ticker : String) (price : ℚ)
  | dateLine (dateStr : String)
  | earnings (days : Int) (dateInfo : String)
  | entryRetest (resistance : ℚ)
  | entryZone (support resistance distance : ℚ)
  | entryNoResistance (sma distance : ℚ)
  | noEntry (sma absDistance : ℚ)
  | statusLine (emoji text : String)
  | explanation (e : Explanation)
  | riskSevere (atr_pct : ℚ)
  | riskWarning (atr_pct : ℚ)
  | riskNormal (atr_pct : ℚ)
  | instruction (text : String)
  | summary (text : String)
deriving DecidableEq, Repr

/-- Risk lines are the three appended under the "ATR warning / info" block. -/
def isRiskLine : Line → Bool
  | .riskSevere _ => true
  | .riskWarning _ => true
  | .riskNormal _ => true
  | _ => false

/-- Earnings block of `format_output`: one line when a days-until-earnings
value is present (with the formatted date when available), nothing else. -/
def earningsLines (a : ClassicResult) : List Line :=
  match a.days_until_earnings with
  | some d =>
    let date_info := match a.next_earnings_date with
      | some nd => " (" ++ formatDMY nd ++ ")"
      | none => ""
    [Line.earnings d date_info]
  | none => []

/-- Entry-zone block of `format_output`: retest / entry-zone /
no-resistance line above trend, the no-entry line below it. -/
def entryLines (a : ClassicResult) : List Line :=
  if a.is_positive then
    match a.entry_zone with
    | some (support, resistance) =>
      if a.current_price > resistance then [Line.entryRetest resistance]
      else [Line.entryZone support resistance a.distance_from_sma]
    | none => [Line.entryNoResistance a.sma_150 a.distance_from_sma]
  else [Line.noEntry a.sma_150 |a.distance_from_sma|]

/-- ATR-risk block of `format_output`: appended only when `atr_pct` is
available, with the wording chosen by `atr_warning`. -/
def riskLines (a : ClassicResult) : List Line :=
  match a.atr_pct with
  | some p =>
    if a.atr_warning = some "severe" then [Line.riskSevere p]
    else if a.atr_warning = some "warning" then [Line.riskWarning p]
    else [Line.riskNormal p]
  | none => []

/-- `ClassicAnalyzer.format_output`, with the wall clock an explicit argument:
the ordered list of lines the formatter emits for an analysis dictionary. -/
def formatOutput (ticker : String) (now : DateTime) (a : ClassicResult) : List Line :=
  [Line.header ticker a.current_price, Line.dateLine (getHebrewDate now)]
  ++ earningsLines a
  ++ entryLines a
  ++ [Line.statusLine (statusEmoji a.status) (statusText a.status)]
  ++ [Line.explanation (generateExplanation a)]
  ++ riskLines a
  ++ [Line.instruction (generateInstruction a)]
  ++ [Line.summary (generateSummary a)]

/-! ## Helper lemmas -/

theorem mkClassicResult_status (df : List BarRow) (last_row : BarRow) (sma : ℚ)
    (d : Option Int) (nd : Option DateTime) :
    (mkClassicResult df last_row sma d nd).status =
      determineStatus (decide (last_row.Close > sma)) (calculateSmaSlope df)
        (decide (|((last_row.Close - sma) / sma) * 100| > EXTENSION_THRESHOLD))
        (((last_row.Close - sma) / sma) * 100) := rfl

theorem mkClassicResult_current_price (df : List BarRow) (last_row : BarRow) (sma : ℚ)
    (d : Option Int) (nd : Option DateTime) :
    (mkClassicResult df last_row sma d nd).current_price = last_row.Close := rfl

theorem mkClassicResult_sma_150 (df : List BarRow) (last_row : BarRow) (sma : ℚ)
    (d : Option Int) (nd : Option DateTime) :
    (mkClassicResult df last_row sma d nd).sma_150 = sma := rfl

theorem mkClassicResult_is_extended (df : List BarRow) (last_row : BarRow) (sma : ℚ)
    (d : Option Int) (nd : Option DateTime) :
    (mkClassicResult df last_row sma d nd).is_extended =
      decide (|((last_row.Close - sma) / sma) * 100| > EXTENSION_THRESHOLD) := rfl

theorem mkClassicResult_distance (df : List BarRow) (last_row : BarRow) (sma : ℚ)
    (d : Option Int) (nd : Option DateTime) :
    (mkClassicResult df last_row sma d nd).distance_from_sma =
      ((last_row.Close - sma) / sma) * 100 := rfl

theorem mkClassicResult_atr_warning (df : List BarRow) (last_row : BarRow) (sma : ℚ)
    (d : Option Int) (nd : Option DateTime) :
    (mkClassicResult df last_row sma d nd).atr_warning =
      match (mkClassicResult df last_row sma d nd).atr_pct with
      | some p =>
        if p ≥ ATR_SEVERE_THRESHOLD then some "severe"
        else if p ≥ ATR_WARNING_THRESHOLD then some "warning"
        else none
      | none => none := rfl

/-- Inversion: a successful `analyze_classic` run names a last row with a
non-NaN SMA_150, and its result is the dictionary built from them. -/
theorem analyzeClassic_ok_elim {df : List BarRow} {d : Option Int}
    {nd : Option DateTime} {a : ClassicResult}
    (hok : analyzeClassic df d nd = Except.ok a) :
    ∃ last_row sma, df.getLast? = some last_row ∧ last_row.SMA_150 = some sma ∧
      a = mkClassicResult df last_row sma d nd := by
  simp only [analyzeClassic] at hok
  cases hlast : df.getLast? with
  | none => simp only [hlast] at hok; exact Except.noConfusion hok
  | some last_row =>
    simp only [hlast] at hok
    cases hsma : last_row.SMA_150 with
    | none => simp only [hsma] at hok; exact Except.noConfusion hok
    | some sma =>
      simp only [hsma, Except.ok.injEq] at hok
      exact ⟨last_row, sma, rfl, hsma, hok.symm⟩

theorem determineStatus_not_positive (s : String) (e : Bool) (d : ℚ) :
    determineStatus false s e d = "breakdown" := rfl

/-! ## Claim theorems -/

/-- C1: for every snapshot whose closing price is at or below SMA_150, a
successful classification returns the status `"breakdown"`, whatever the
slope label, extension flag, distance value and other indicators are. -/
theorem analyzeClassic_status_breakdown_of_le (df : List BarRow) (d : Option Int)
    (nd : Option DateTime) (a : ClassicResult)
    (hok : analyzeClassic df d nd = Except.ok a)
    (hle : a.current_price ≤ a.sma_150) :
    a.status = "breakdown" := by
  obtain ⟨last_row, sma, hlast, hsma, ha⟩ := analyzeClassic_ok_elim hok
  subst ha
  rw [mkClassicResult_current_price, mkClassicResult_sma_150] at hle
  rw [mkClassicResult_status, decide_eq_false (not_lt.mpr hle),
    determineStatus_not_positive]

/-- Witness frame for C1: one row closing at 90 with SMA_150 = 100. -/
def dfC1 : List BarRow := [⟨90, some 90, some 100, none⟩]

/-- Result dictionary `analyze_classic` produces on `dfC1`. -/
def resC1 : ClassicResult :=
  { is_positive := false, current_price := 90, sma_150 := 100,
    sma_slope := "unknown", distance_from_sma := -10, is_extended := false,
    entry_zone := none, resistance := none, atr_pct := none,
    atr_warning := none, status := "breakdown", days_until_earnings := none,
    next_earnings_date := none }

/-- C1 witness: the claim instantiated on the concrete frame `dfC1`. -/
theorem analyzeClassic_status_breakdown_of_le_witness : resC1.status = "breakdown" :=
  analyzeClassic_status_breakdown_of_le dfC1 none none resC1
    (by
      simp [analyzeClassic, mkClassicResult, calculateSmaSlope, findLocalResistance,
        determineStatus, dfC1, resC1, SMA_SLOPE_LOOKBACK, EXTENSION_THRESHOLD,
        RESISTANCE_LOOKBACK]
      norm_num)
    (by norm_num [resC1])

/-- C2: every input to `_determine_status` — any trend sign, any slope string
(including `"unknown"` or garbage), any extension flag, any distance — yields
exactly one of the five status labels; no input falls through unmatched. -/
theorem determineStatus_mem_five_labels (p : Bool) (s : String) (e : Bool) (d : ℚ) :
    determineStatus p s e d ∈
      ["breakout", "stretched", "breakdown", "stagnation", "accumulation"] := by
  unfold determineStatus
  split_ifs <;> simp

/-- C6: `analyze_classic` succeeds exactly when the frame has a last row whose
SMA_150 is available; on failure an error is returned and no status record is
produced at all. -/
theorem analyzeClassic_ok_iff_sma_available (df : List BarRow) (d : Option Int)
    (nd : Option DateTime) :
    (∃ a, analyzeClassic df d nd = Except.ok a) ↔
    (∃ last_row sma, df.getLast? = some last_row ∧ last_row.SMA_150 = some sma) := by
  unfold analyzeClassic
  cases hlast : df.getLast? with
  | none => simp
  | some last_row =>
    cases hsma : last_row.SMA_150 with
    | none => simp [hsma]
    | some sma => simp [hsma]

/-! ### Scoring bounds (per-rule) -/

theorem smaContrib_sum_bounds (c : ℚ) (s : Option ℚ) :
    0 ≤ (smaContrib c s).sum ∧ (smaContrib c s).sum ≤ SCORE_SMA_CROSSOVER := by
  cases s with
  | none => norm_num [smaContrib, SCORE_SMA_CROSSOVER]
  | some v =>
    simp only [smaContrib]
    split_ifs <;> norm_num [SCORE_SMA_CROSSOVER, SCORE_SMA_ESTABLISHED]

theorem emaContrib_sum_bounds (c : ℚ) (e : Option ℚ) :
    0 ≤ (emaContrib c e).sum ∧ (emaContrib c e).sum ≤ SCORE_EMA_ABOVE := by
  cases e with
  | none => norm_num [emaContrib, SCORE_EMA_ABOVE]
  | some v =>
    simp only [emaContrib]
    split_ifs <;> norm_num [SCORE_EMA_ABOVE]

theorem rsiContrib_sum_bounds (r : Option ℚ) :
    PENALTY_RSI_EXTREME ≤ (rsiContrib r).sum ∧ (rsiContrib r).sum ≤ SCORE_RSI_OPTIMAL := by
  cases r with
  | none => norm_num [rsiContrib, PENALTY_RSI_EXTREME, SCORE_RSI_OPTIMAL]
  | some v =>
    simp only [rsiContrib]
    split_ifs <;> norm_num [PENALTY_RSI_EXTREME, SCORE_RSI_OPTIMAL]

theorem volumeContrib_sum_bounds (v m : Option ℚ) :
    0 ≤ (volumeContrib v m).sum ∧ (volumeContrib v m).sum ≤ SCORE_VOLUME_HIGH := by
  cases v with
  | none => cases m <;> norm_num [volumeContrib, SCORE_VOLUME_HIGH]
  | some a =>
    cases m with
    | none => norm_num [volumeContrib, SCORE_VOLUME_HIGH]
    | some b =>
      simp only [volumeContrib]
      split_ifs <;> norm_num [SCORE_VOLUME_HIGH]

theorem cciContrib_sum_bounds (c : Option ℚ) :
    0 ≤ (cciContrib c).sum ∧ (cciContrib c).sum ≤ SCORE_CCI_STRONG := by
  cases c with
  | none => norm_num [cciContrib, SCORE_CCI_STRONG]
  | some v =>
    simp only [cciContrib]
    split_ifs <;> norm_num [SCORE_CCI_STRONG]

theorem bbContrib_sum_bounds (c : ℚ) (u : Option ℚ) :
    PENALTY_BBANDS_OVEREXTENDED ≤ (bbContrib c u).sum ∧ (bbContrib c u).sum ≤ 0 := by
  cases u with
  | none => norm_num [bbContrib, PENALTY_BBANDS_OVEREXTENDED]
  | some v =>
    simp only [bbContrib]
    split_ifs <;> norm_num [PENALTY_BBANDS_OVEREXTENDED]

theorem contributions_sum_le (r : ScoreRow) : (contributions r).sum ≤ MAX_SCORE := by
  have h1 := smaContrib_sum_bounds r.Close r.SMA_150
  have h2 := emaContrib_sum_bounds r.Close r.EMA_50
  have h3 := rsiContrib_sum_bounds r.RSI
  have h4 := volumeContrib_sum_bounds r.Volume r.Volume_MA_20
  have h5 := cciContrib_sum_bounds r.CCI
  have h6 := bbContrib_sum_bounds r.Close r.BBands_Upper
  unfold contributions
  simp only [List.sum_append]
  refine le_trans (add_le_add (add_le_add (add_le_add (add_le_add
    (add_le_add h1.2 h2.2) h3.2) h4.2) h5.2) h6.2) ?_
  norm_num [SCORE_SMA_CROSSOVER, SCORE_EMA_ABOVE, SCORE_RSI_OPTIMAL,
    SCORE_VOLUME_HIGH, SCORE_CCI_STRONG, MAX_SCORE]

/-- C3: for every snapshot the reported score lies in `[0, MAX_SCORE]` and is
exactly the zero-floored sum of the itemized contributions recorded for it. -/
theorem calculateScore_bounds_and_clamped_sum (r : ScoreRow) :
    0 ≤ (calculateScore r).1 ∧ (calculateScore r).1 ≤ MAX_SCORE ∧
    (calculateScore r).1 = max 0 (calculateScore r).2.sum := by
  refine ⟨le_max_left 0 _, ?_, rfl⟩
  exact max_le (by norm_num [MAX_SCORE]) (contributions_sum_le r)

/-- C7: an unavailable (NaN) indicator makes its rule fire neither a bonus
nor a penalty — the block contributes the empty list — and the scoring
engine still returns a result (a snapshot with every indicator missing
scores 0 with no contributions). -/
theorem missing_indicators_contribute_nothing (close v m : ℚ) :
    smaContrib close none = [] ∧ emaContrib close none = [] ∧
    rsiContrib none = [] ∧ volumeContrib none (some m) = [] ∧
    volumeContrib (some v) none = [] ∧ volumeContrib none none = [] ∧
    cciContrib none = [] ∧ bbContrib close none = [] ∧
    calculateScore ⟨close, none, none, none, none, none, none, none⟩ = (0, []) := by
  refine ⟨rfl, rfl, rfl, rfl, rfl, rfl, rfl, rfl, ?_⟩
  simp [calculateScore, contributions, smaContrib, emaContrib, rsiContrib,
    volumeContrib, cciContrib, bbContrib]

/-! ### The volume-bonus difference (C5) -/

/-- Volume rule trigger of `calculate_score`: both the volume and its 20-day
average are available and the volume exceeds the average. -/
def volumeAboveAvg (r : ScoreRow) : Bool :=
  match r.Volume, r.Volume_MA_20 with
  | some v, some m => decide (v > m)
  | _, _ => false

theorem volumeContrib_of_above {r : ScoreRow} (h : volumeAboveAvg r = true) :
    volumeContrib r.Volume r.Volume_MA_20 = [SCORE_VOLUME_HIGH] := by
  unfold volumeAboveAvg at h
  unfold volumeContrib
  cases hv : r.Volume with
  | none => rw [hv] at h; exact Bool.noConfusion h
  | some v =>
    cases hm : r.Volume_MA_20 with
    | none => rw [hv, hm] at h; exact Bool.noConfusion h
    | some m =>
      rw [hv, hm] at h
      simp only [decide_eq_true_eq] at h
      simp [h]

theorem volumeContrib_of_not_above {r : ScoreRow} (h : volumeAboveAvg r = false) :
    volumeContrib r.Volume r.Volume_MA_20 = [] := by
  unfold volumeAboveAvg at h
  unfold volumeContrib
  cases hv : r.Volume with
  | none => rfl
  | some v =>
    cases hm : r.Volume_MA_20 with
    | none => rfl
    | some m =>
      rw [hv, hm] at h
      simp only [decide_eq_false_iff_not] at h
      simp [h]

/-- Snapshot for the C5 counterexample whose volume exceeds its average. -/
def rowVolAbove : ScoreRow := ⟨100, none, none, some 80, none, some 200, some 100, some 50⟩

/-- The same snapshot with the volume below its average. -/
def rowVolBelow : ScoreRow := ⟨100, none, none, some 80, none, some 50, some 100, some 50⟩

/-- C5 counterexample: `rowVolAbove` and `rowVolBelow` agree on every score
input except the volume relation (above vs. below its rolling average), yet
both scores clamp to 0 — they do not differ by the volume bonus constant. -/
theorem volume_bonus_clamped_cex :
    rowVolAbove.Close = rowVolBelow.Close ∧
    rowVolAbove.SMA_150 = rowVolBelow.SMA_150 ∧
    rowVolAbove.EMA_50 = rowVolBelow.EMA_50 ∧
    rowVolAbove.RSI = rowVolBelow.RSI ∧
    rowVolAbove.CCI = rowVolBelow.CCI ∧
    rowVolAbove.BBands_Upper = rowVolBelow.BBands_Upper ∧
    volumeAboveAvg rowVolAbove = true ∧ volumeAboveAvg rowVolBelow = false ∧
    (calculateScore rowVolAbove).1 = 0 ∧ (calculateScore rowVolBelow).1 = 0 ∧
    (calculateScore rowVolAbove).1 - (calculateScore rowVolBelow).1 ≠ SCORE_VOLUME_HIGH := by
  refine ⟨rfl, rfl, rfl, rfl, rfl, rfl, by decide, by decide, ?_, ?_, ?_⟩ <;>
    norm_num [calculateScore, contributions, smaContrib, emaContrib, rsiContrib,
      volumeContrib, cciContrib, bbContrib, rowVolAbove, rowVolBelow,
      RSI_OPTIMAL_LOW, RSI_OPTIMAL_HIGH, RSI_OVERBOUGHT, RSI_OVERSOLD,
      PENALTY_RSI_EXTREME, PENALTY_BBANDS_OVEREXTENDED, SCORE_VOLUME_HIGH]

/-- C5 amended: for two snapshots identical except for the volume relation,
the unclamped contribution sums differ by exactly `SCORE_VOLUME_HIGH`; the
reported (zero-floored) scores differ by exactly that constant whenever the
below-average snapshot's contribution sum is nonnegative. -/
theorem volume_bonus_difference (r1 r2 : ScoreRow)
    (hC : r1.Close = r2.Close) (hS : r1.SMA_150 = r2.SMA_150)
    (hE : r1.EMA_50 = r2.EMA_50) (hR : r1.RSI = r2.RSI)
    (hI : r1.CCI = r2.CCI) (hB : r1.BBands_Upper = r2.BBands_Upper)
    (h1 : volumeAboveAvg r1 = true) (h2 : volumeAboveAvg r2 = false) :
    (calculateScore r1).2.sum = (calculateScore r2).2.sum + SCORE_VOLUME_HIGH ∧
    (0 ≤ (calculateScore r2).2.sum →
      (calculateScore r1).1 = (calculateScore r2).1 + SCORE_VOLUME_HIGH) := by
  have hsum : (contributions r1).sum = (contributions r2).sum + SCORE_VOLUME_HIGH := by
    unfold contributions
    rw [hC, hS, hE, hR, hI, hB, volumeContrib_of_above h1, volumeContrib_of_not_above h2]
    simp only [List.sum_append, List.sum_cons, List.sum_nil]
    ring
  refine ⟨hsum, fun hnn => ?_⟩
  have hnn' : (0:ℚ) ≤ (contributions r2).sum := hnn
  have hpos : (0:ℚ) ≤ (contributions r2).sum + SCORE_VOLUME_HIGH := by
    have hb : (0:ℚ) ≤ SCORE_VOLUME_HIGH := by norm_num [SCORE_VOLUME_HIGH]
    exact add_nonneg hnn' hb
  show max 0 (contributions r1).sum = max 0 (contributions r2).sum + SCORE_VOLUME_HIGH
  rw [hsum, max_eq_right hpos, max_eq_right hnn']

/-- Snapshot pair for the C5 witness: volume 200 vs. 50 against an average of
100, no other indicator available. -/
def rowVolAboveW : ScoreRow := ⟨100, none, none, none, none, some 200, some 100, none⟩

/-- Below-average partner of `rowVolAboveW`. -/
def rowVolBelowW : ScoreRow := ⟨100, none, none, none, none, some 50, some 100, none⟩

/-- C5 witness: the amended claim instantiated on the concrete pair. -/
theorem volume_bonus_difference_witness :
    (calculateScore rowVolAboveW).2.sum = (calculateScore rowVolBelowW).2.sum + SCORE_VOLUME_HIGH ∧
    (0 ≤ (calculateScore rowVolBelowW).2.sum →
      (calculateScore rowVolAboveW).1 = (calculateScore rowVolBelowW).1 + SCORE_VOLUME_HIGH) :=
  volume_bonus_difference rowVolAboveW rowVolBelowW rfl rfl rfl rfl rfl rfl
    (by decide) (by decide)

/-! ### The final classifier branch (C4) -/

/-- C4 counterexample: a snapshot above trend within the extension threshold
whose slope label is `"unknown"` (insufficient slope history) still reaches
the final accumulation/breakout branch — the branch is not reserved to the
`"rising"` label. -/
theorem determineStatus_final_branch_unknown_slope_cex :
    determineStatus true "unknown" false 10 = "breakout" ∧
    ("unknown" : String) ≠ "rising" ∧ |(10:ℚ)| ≤ EXTENSION_THRESHOLD := by
  refine ⟨?_, by decide, by norm_num [EXTENSION_THRESHOLD]⟩
  simp only [determineStatus]
  rw [if_neg (by simp), if_neg (by simp), if_neg (by decide), if_neg (by norm_num)]

/-- C4 amended: for a snapshot above trend with |distance| within the
extension threshold, the final branch is reached exactly when the slope label
is neither `"declining"` nor `"flat"` (so also for `"unknown"`); in that
branch the result is `"accumulation"` when |distance| < 5 and `"breakout"`
otherwise. -/
theorem determineStatus_final_branch_characterization (slope : String) (ext : Bool)
    (d : ℚ) (h : |d| ≤ EXTENSION_THRESHOLD) :
    ((determineStatus true slope ext d = "accumulation" ∨
      determineStatus true slope ext d = "breakout") ↔
      ¬(slope = "declining" ∨ slope = "flat")) ∧
    (¬(slope = "declining" ∨ slope = "flat") →
      determineStatus true slope ext d =
        if |d| < 5 then "accumulation" else "breakout") := by
  have hno : ¬(ext = true ∧ d > EXTENSION_THRESHOLD) := by
    rintro ⟨-, hd⟩
    exact absurd (le_trans (le_abs_self d) h) (not_le.mpr hd)
  unfold determineStatus
  rw [if_neg (by simp), if_neg hno]
  by_cases hs : slope = "declining" ∨ slope = "flat"
  · rw [if_pos hs]
    refine ⟨?_, fun hns => absurd hs hns⟩
    constructor
    · rintro (h1 | h1) <;> exact absurd h1 (by decide)
    · intro hns; exact absurd hs hns
  · rw [if_neg hs]
    refine ⟨?_, fun _ => rfl⟩
    by_cases hd5 : |d| < 5
    · rw [if_pos hd5]; simp [hs]
    · rw [if_neg hd5]; simp [hs]

/-- C4 witness: the amended characterization instantiated at slope
`"rising"`, distance 10 (not extended, outside the tight band). -/
theorem determineStatus_final_branch_characterization_witness :
    determineStatus true "rising" false 10 = "breakout" := by
  have h := (determineStatus_final_branch_characterization "rising" false 10
    (by norm_num [EXTENSION_THRESHOLD])).2 (by decide)
  rw [if_neg (by norm_num)] at h
  exact h

/-! ### Breakout vs. extension (C10) -/

theorem generateInstruction_breakout {a : ClassicResult}
    (h1 : a.status = "breakout") (h2 : a.is_extended = false) :
    generateInstruction a = "📈 הוראה: איסוף" := by
  unfold generateInstruction
  rw [h1, h2]
  decide

/-- C10 counterexample: a frame with negative prices (close −1, SMA_150 −10)
yields a `"breakout"` status with the extension flag set, and the instruction
generator then takes its "do not chase" sub-branch rather than "accumulate".
(The distance is −90%, so branch 2's `distance > 20` test fails even though
the extension flag is on.) -/
theorem breakout_extended_reachable_cex :
    (analyzeClassic [⟨-1, some (-1), some (-10), none⟩] none none).toOption.map
      (fun a => (a.status, a.is_extended, generateInstruction a)) =
      some ("breakout", true, "📈 הוראה: לא לרדוף") := by
  simp [analyzeClassic, mkClassicResult, calculateSmaSlope, findLocalResistance,
    determineStatus, generateInstruction, Except.toOption, SMA_SLOPE_LOOKBACK,
    EXTENSION_THRESHOLD, RESISTANCE_LOOKBACK]
  norm_num
  decide

/-- C10 amended: for every analysis result whose SMA_150 is positive (in
particular for all genuine price data), `"breakout"` implies the extension
flag is off, and the breakout instruction is the "accumulate" line — the
extended-breakout "do not chase" sub-branch is unreachable. -/
theorem breakout_not_extended_of_sma_pos (df : List BarRow) (d : Option Int)
    (nd : Option DateTime) (a : ClassicResult)
    (hok : analyzeClassic df d nd = Except.ok a) (hpos : 0 < a.sma_150)
    (hst : a.status = "breakout") :
    a.is_extended = false ∧ generateInstruction a = "📈 הוראה: איסוף" := by
  obtain ⟨last_row, sma, hlast, hsm, ha⟩ := analyzeClassic_ok_elim hok
  subst ha
  have hstD := hst
  rw [mkClassicResult_status] at hstD
  rw [mkClassicResult_sma_150] at hpos
  by_cases hp : last_row.Close > sma
  · have hdpos : 0 < ((last_row.Close - sma) / sma) * 100 := by
      have h1 : 0 < last_row.Close - sma := sub_pos.mpr hp
      have h2 : 0 < (last_row.Close - sma) / sma := div_pos h1 hpos
      exact mul_pos h2 (by norm_num)
    have hne : ¬(|((last_row.Close - sma) / sma) * 100| > EXTENSION_THRESHOLD) := by
      intro habs
      have h20 : ((last_row.Close - sma) / sma) * 100 > EXTENSION_THRESHOLD := by
        rwa [abs_of_pos hdpos] at habs
      simp only [determineStatus] at hstD
      rw [if_neg (by simp [decide_eq_true hp]),
        if_pos ⟨decide_eq_true habs, h20⟩] at hstD
      exact absurd hstD (by decide)
    have hext : (mkClassicResult df last_row sma d nd).is_extended = false := by
      rw [mkClassicResult_is_extended]; exact decide_eq_false hne
    exact ⟨hext, generateInstruction_breakout hst hext⟩
  · rw [decide_eq_false hp, determineStatus_not_positive] at hstD
    exact absurd hstD (by decide)

/-- Witness frame for C10: one row closing at 110 with SMA_150 = 100. -/
def dfC10 : List BarRow := [⟨110, some 110, some 100, none⟩]

/-- Result dictionary `analyze_classic` produces on `dfC10`. -/
def resC10 : ClassicResult :=
  { is_positive := true, current_price := 110, sma_150 := 100,
    sma_slope := "unknown", distance_from_sma := 10, is_extended := false,
    entry_zone := some (100, 110), resistance := some 110, atr_pct := none,
    atr_warning := none, status := "breakout", days_until_earnings := none,
    next_earnings_date := none }

/-- C10 witness: the amended claim instantiated on the concrete frame
`dfC10`, a non-extended breakout mapped to the accumulate instruction. -/
theorem breakout_not_extended_of_sma_pos_witness :
    resC10.is_extended = false ∧ generateInstruction resC10 = "📈 הוראה: איסוף" :=
  breakout_not_extended_of_sma_pos dfC10 none none resC10
    (by
      simp [analyzeClassic, mkClassicResult, calculateSmaSlope, findLocalResistance,
        determineStatus, dfC10, resC10, SMA_SLOPE_LOOKBACK, EXTENSION_THRESHOLD,
        RESISTANCE_LOOKBACK]
      norm_num)
    (by norm_num [resC10])
    (by rfl)

/-! ### The volatility-risk line (C8) -/

theorem filter_risk_earningsLines (a : ClassicResult) :
    (earningsLines a).filter isRiskLine = [] := by
  unfold earningsLines
  cases a.days_until_earnings <;> rfl

theorem filter_risk_entryLines (a : ClassicResult) :
    (entryLines a).filter isRiskLine = [] := by
  unfold entryLines
  split
  · split
    · split
      · rfl
      · rfl
    · rfl
  · rfl

theorem filter_risk_riskLines (a : ClassicResult) :
    (riskLines a).filter isRiskLine = riskLines a := by
  unfold riskLines
  split
  · split_ifs <;> rfl
  · rfl

/-- Filtering the formatted output for risk lines leaves exactly the ATR
block: every other section contributes none. -/
theorem formatOutput_filter_risk (t : String) (now : DateTime) (a : ClassicResult) :
    (formatOutput t now a).filter isRiskLine = riskLines a := by
  unfold formatOutput
  simp only [List.filter_append, filter_risk_earningsLines, filter_risk_entryLines,
    filter_risk_riskLines]
  simp [isRiskLine]

/-- Frame for the C8 counterexample: valid SMA_150 but no ATR value. -/
def dfC8 : List BarRow := [⟨100, some 100, some 90, none⟩]

/-- C8 counterexample: when ATR is unavailable, `atr_pct` is `None` and the
formatted narrative contains no volatility-risk line at all. -/
theorem risk_line_missing_atr_cex :
    (analyzeClassic dfC8 none none).toOption.map
      (fun a => (formatOutput "TEST" ⟨1, 1, 2025, "Wednesday"⟩ a).filter isRiskLine) =
      some [] := by
  simp [analyzeClassic, mkClassicResult, dfC8, Except.toOption,
    formatOutput_filter_risk, riskLines]

/-- C8 amended: whenever the ATR percentage is available in the analysis
result, the narrative contains exactly one volatility-risk line, its wording
selected by the bucket: severe at or above `ATR_SEVERE_THRESHOLD`, warning at
or above `ATR_WARNING_THRESHOLD`, normal below both. -/
theorem risk_line_bucket (df : List BarRow) (d : Option Int) (nd : Option DateTime)
    (a : ClassicResult) (t : String) (now : DateTime) (p : ℚ)
    (hok : analyzeClassic df d nd = Except.ok a) (hA : a.atr_pct = some p) :
    (formatOutput t now a).filter isRiskLine =
      [if p ≥ ATR_SEVERE_THRESHOLD then Line.riskSevere p
       else if p ≥ ATR_WARNING_THRESHOLD then Line.riskWarning p
       else Line.riskNormal p] := by
  obtain ⟨last_row, sma, hlast, hsm, ha⟩ := analyzeClassic_ok_elim hok
  have hw : a.atr_warning =
      (if p ≥ ATR_SEVERE_THRESHOLD then some "severe"
       else if p ≥ ATR_WARNING_THRESHOLD then some "warning" else none) := by
    rw [ha] at hA ⊢
    rw [mkClassicResult_atr_warning]
    simp only [hA]
  rw [formatOutput_filter_risk]
  unfold riskLines
  simp only [hA, hw]
  by_cases h8 : p ≥ ATR_SEVERE_THRESHOLD
  · simp [h8]
  · by_cases h5 : p ≥ ATR_WARNING_THRESHOLD
    · simp [h8, h5]
    · simp [h8, h5]

/-- Witness frame for C8: close 100, SMA_150 = 90, ATR = 10 (10% of price,
severe bucket). -/
def dfC8w : List BarRow := [⟨100, some 100, some 90, some 10⟩]

/-- Result dictionary `analyze_classic` produces on `dfC8w`. -/
def resC8w : ClassicResult :=
  { is_positive := true, current_price := 100, sma_150 := 90,
    sma_slope := "unknown", distance_from_sma := 100/9, is_extended := false,
    entry_zone := some (90, 100), resistance := some 100, atr_pct := some 10,
    atr_warning := some "severe", status := "breakout", days_until_earnings := none,
    next_earnings_date := none }

/-- C8 witness: the amended claim instantiated on `dfC8w` — the narrative
carries exactly the severe risk line at 10%. -/
theorem risk_line_bucket_witness :
    (formatOutput "TEST" ⟨2, 1, 2025, "Thursday"⟩ resC8w).filter isRiskLine =
      [Line.riskSevere 10] := by
  have h := risk_line_bucket dfC8w none none resC8w "TEST" ⟨2, 1, 2025, "Thursday"⟩ 10
    (by
      simp [analyzeClassic, mkClassicResult, calculateSmaSlope, findLocalResistance,
        determineStatus, dfC8w, resC8w, SMA_SLOPE_LOOKBACK, EXTENSION_THRESHOLD,
        RESISTANCE_LOOKBACK, ATR_SEVERE_THRESHOLD, ATR_WARNING_THRESHOLD]
      norm_num [abs_le, abs_lt])
    (by rfl)
  rw [if_pos (by norm_num [ATR_SEVERE_THRESHOLD])] at h
  exact h

/-! ### Determinism of narration (C9) -/

/-- Analysis record for the C9 counterexample and witness. -/
def resC9 : ClassicResult :=
  { is_positive := false, current_price := 90, sma_150 := 100,
    sma_slope := "unknown", distance_from_sma := -10, is_extended := false,
    entry_zone := none, resistance := none, atr_pct := none, atr_warning := none,
    status := "breakdown", days_until_earnings := none, next_earnings_date := none }

/-- C9 counterexample: the narrative layer reads the wall clock
(`datetime.now()` in `_get_hebrew_date`), so two runs on the same immutable
snapshot that observe different dates produce different narrative records —
narration is not a function of the snapshot alone. -/
theorem narrative_date_dependence_cex :
    formatOutput "AAPL" ⟨1, 1, 2025, "Wednesday"⟩ resC9 ≠
    formatOutput "AAPL" ⟨2, 1, 2025, "Thursday"⟩ resC9 := by
  decide

/-- C9 amended: classification is a pure function of the frame, and narration
is deterministic given the observed date — two narrate calls on the same
snapshot yield identical records whenever the formatted current date they
observe is the same. -/
theorem narrative_deterministic_given_date (t : String) (a : ClassicResult)
    (now1 now2 : DateTime) (h : getHebrewDate now1 = getHebrewDate now2) :
    formatOutput t now1 a = formatOutput t now2 a := by
  unfold formatOutput
  rw [h]

/-- C9 witness: two runs observing the same date agree on `resC9`. -/
theorem narrative_deterministic_given_date_witness :
    formatOutput "AAPL" ⟨3, 1, 2025, "Friday"⟩ resC9 =
    formatOutput "AAPL" ⟨3, 1, 2025, "Friday"⟩ resC9 :=
  narrative_deterministic_given_date "AAPL" resC9
    ⟨3, 1, 2025, "Friday"⟩ ⟨3, 1, 2025, "Friday"⟩ rfl

end AthenaInvest
